import Mathlib

/-!
Shallow embedding of the `envi` application scaffold (src/app.rs, src/main.rs).

The repository is initialization glue over the winit windowing library and the
wgpu graphics library.  External-library values (windows, surfaces, devices,
queues, adapters) are modelled as opaque records; the external calls that the
code makes (`create_surface`, `request_adapter`, `request_device`,
`get_capabilities`, `ActiveEventLoop::create_window`, image decoding) are
modelled as oracle functions supplied in records, so that the glue logic of
this repository is translated faithfully while the libraries stay abstract.
Fallible calls (`expect`, `?`) are modelled with `Option`: `none` is a panic or
an early error return.  Observable side effects (blocking on the async
runtime, creating an OS window, setting a window icon, requesting event-loop
exit) are recorded in an effect trace that each operation returns alongside
its state.
-/

namespace Envi

/-- winit window identifier (opaque, modelled as a natural number). -/
abbrev WindowId := Nat

/-- winit::dpi::PhysicalSize<u32>. -/
structure PhysicalSize where
  width : Nat
  height : Nat
deriving Repr, DecidableEq

/-- A fragment of wgpu::TextureFormat, enough to distinguish sRGB formats. -/
inductive TextureFormat where
  | rgba8Unorm
  | rgba8UnormSrgb
  | bgra8Unorm
  | bgra8UnormSrgb
  | rgba16Float
deriving Repr, DecidableEq

/-- wgpu::TextureFormat::is_srgb: exactly the `-Srgb` variants. -/
def TextureFormat.is_srgb : TextureFormat → Bool
  | .rgba8UnormSrgb => true
  | .bgra8UnormSrgb => true
  | _ => false

/-- wgpu::PresentMode (fragment). -/
inductive PresentMode where
  | fifo
  | immediate
  | mailbox
deriving Repr, DecidableEq

/-- wgpu::CompositeAlphaMode (fragment). -/
inductive CompositeAlphaMode where
  | auto
  | preMultiplied
  | postMultiplied
  | inherit
deriving Repr, DecidableEq

/-- wgpu::TextureUsages, modelled as a bitflag word. -/
abbrev TextureUsages := Nat

/-- wgpu::TextureUsages::RENDER_ATTACHMENT. -/
def renderAttachment : TextureUsages := 16

/-- wgpu::SurfaceConfiguration. -/
structure SurfaceConfiguration where
  usage : TextureUsages
  format : TextureFormat
  width : Nat
  height : Nat
  presentMode : PresentMode
  desiredMaximumFrameLatency : Nat
  alphaMode : CompositeAlphaMode
  viewFormats : List TextureFormat
deriving Repr, DecidableEq

/-- wgpu::SurfaceCapabilities (the fields `get_default_config` and
`WindowState::new` read). -/
structure SurfaceCapabilities where
  formats : List TextureFormat
  presentModes : List PresentMode
  alphaModes : List CompositeAlphaMode
deriving Repr, DecidableEq

/-- Opaque wgpu surface handle. -/
structure Surface where
  id : Nat
deriving Repr, DecidableEq

/-- Opaque wgpu adapter handle. -/
structure Adapter where
  id : Nat
deriving Repr, DecidableEq

/-- Opaque wgpu device handle. -/
structure Device where
  id : Nat
deriving Repr, DecidableEq

/-- Opaque wgpu queue handle. -/
structure Queue where
  id : Nat
deriving Repr, DecidableEq

/-- winit::window::Icon: RGBA bytes plus dimensions. -/
structure Icon where
  rgba : List Nat
  width : Nat
  height : Nat
deriving Repr, DecidableEq

/-- winit::window::Window: an opaque OS window handle carrying the attributes
the code reads (`id`, `inner_size`) and the ones it was created with. -/
structure Window where
  id : WindowId
  title : String
  transparent : Bool
  innerSize : PhysicalSize
deriving Repr, DecidableEq

/-- Modelled from wgpu `Surface::get_default_config`: the default surface
configuration for the given capabilities and size.  wgpu fills
`usage = RENDER_ATTACHMENT`, `format = caps.formats[0]`,
`present_mode = caps.present_modes[0]`, `alpha_mode = Auto`,
`desired_maximum_frame_latency = 2`, `view_formats = []`, and returns `None`
when the capability lists are empty. -/
def getDefaultConfig (caps : SurfaceCapabilities) (width height : Nat) :
    Option SurfaceConfiguration :=
  match caps.formats.head?, caps.presentModes.head? with
  | some format, some presentMode =>
      some { usage := renderAttachment
             format := format
             width := width
             height := height
             presentMode := presentMode
             desiredMaximumFrameLatency := 2
             alphaMode := .auto
             viewFormats := [] }
  | _, _ => none

/-- Oracle for the wgpu calls made in `WindowState::new`; a `none` result
models the corresponding `.expect` panic. -/
structure Gpu where
  createSurface : Window → Option Surface
  requestAdapter : Surface → Option Adapter
  requestDevice : Adapter → Option (Device × Queue)
  getCapabilities : Surface → Adapter → SurfaceCapabilities

/-- The externally visible steps of `WindowState::new`, in the order the code
performs them. -/
inductive GpuStep where
  | createSurface
  | requestAdapter
  | requestDevice
  | getCapabilities
  | selectFormat
  | defaultConfig
deriving Repr, DecidableEq

/-- State of a winit window (src/app.rs lines 17-30). -/
structure WindowState where
  /-- Render surface. -/
  surface : Surface
  /-- Window size. -/
  size : PhysicalSize
  /-- Configuration of render surface. -/
  config : SurfaceConfiguration
  /-- Graphics device handle. -/
  device : Device
  /-- Device command queue handle. -/
  queue : Queue
  /-- The actual winit Window. -/
  window : Window
deriving Repr, DecidableEq

/-- `WindowState::new` (src/app.rs lines 33-97), returning the ordered trace of
gpu steps performed together with the constructed state; `none` models a panic
of one of the `.expect` calls (surface creation, adapter, device, the sRGB
format search, or the default-config lookup). -/
def WindowState.newCore (gpu : Gpu) (window : Window) :
    List GpuStep × Option WindowState :=
  match gpu.createSurface window with
  | none => ([.createSurface], none)
  | some surface =>
    match gpu.requestAdapter surface with
    | none => ([.createSurface, .requestAdapter], none)
    | some adapter =>
      match gpu.requestDevice adapter with
      | none => ([.createSurface, .requestAdapter, .requestDevice], none)
      | some (device, queue) =>
        match (gpu.getCapabilities surface adapter).formats.find?
            (fun f => f.is_srgb) with
        | none =>
            ([.createSurface, .requestAdapter, .requestDevice,
              .getCapabilities, .selectFormat], none)
        | some surfaceFormat =>
          match getDefaultConfig (gpu.getCapabilities surface adapter)
              window.innerSize.width window.innerSize.height with
          | none =>
              ([.createSurface, .requestAdapter, .requestDevice,
                .getCapabilities, .selectFormat, .defaultConfig], none)
          | some defaultConfig =>
              ([.createSurface, .requestAdapter, .requestDevice,
                .getCapabilities, .selectFormat, .defaultConfig],
               some { surface := surface
                      size := window.innerSize
                      config := { defaultConfig with format := surfaceFormat }
                      device := device
                      queue := queue
                      window := window })

/-- `WindowState::new`, result only. -/
def WindowState.new (gpu : Gpu) (window : Window) : Option WindowState :=
  (WindowState.newCore gpu window).2

/-! ## winit events (the fragment the handler inspects) -/

/-- winit::event::ElementState. -/
inductive ElementState where
  | pressed
  | released
deriving Repr, DecidableEq

/-- winit::keyboard::KeyCode (fragment). -/
inductive KeyCode where
  | escape
  | enter
  | keyA
  | space
deriving Repr, DecidableEq

/-- winit::keyboard::PhysicalKey. -/
inductive PhysicalKey where
  | code (c : KeyCode)
  | unidentified (scancode : Nat)
deriving Repr, DecidableEq

/-- winit::event::KeyEvent (the fields the pattern in `window_event` names,
plus one of the fields its `..` elides). -/
structure KeyEvent where
  state : ElementState
  physicalKey : PhysicalKey
  isRepeat : Bool
deriving Repr, DecidableEq

/-- winit::event::WindowEvent (the two variants `window_event` matches plus a
sample of the variants that fall into its `_` arm). -/
inductive WindowEvent where
  | closeRequested
  | keyboardInput (event : KeyEvent) (isSynthetic : Bool)
  | resized (size : PhysicalSize)
  | moved (x y : Int)
  | focused (b : Bool)
  | redrawRequested
  | destroyed
  | cursorMoved (x y : Int)
deriving Repr, DecidableEq

/-! ## Application state and its window map

The Rust code stores windows in a `HashMap<WindowId, WindowState>`; it is
modelled as an association list with `HashMap` semantics: `insertW` replaces
any existing binding of the key, `removeW` deletes it, `lookupW` finds the
current binding. -/

/-- The window map of the application. -/
abbrev WindowMap := List (WindowId × WindowState)

/-- HashMap::get semantics on the association list. -/
def lookupW : WindowMap → WindowId → Option WindowState
  | [], _ => none
  | (k, v) :: rest, key => if k = key then some v else lookupW rest key

/-- HashMap::remove semantics (dropping the binding of the key). -/
def removeW (m : WindowMap) (key : WindowId) : WindowMap :=
  m.filter (fun p => p.1 != key)

/-- HashMap::insert semantics (the new binding shadows and replaces any old
binding of the key). -/
def insertW (m : WindowMap) (key : WindowId) (v : WindowState) : WindowMap :=
  (key, v) :: removeW m key

/-- Observable side effects of the application operations. -/
inductive Eff where
  /-- `rt.block_on(...)` in `resumed`. -/
  | blockOn
  /-- `event_loop.create_window(attributes)` with the attribute values the
  code sets (title, transparency, window icon). -/
  | osCreateWindow (title : String) (transparent : Bool) (icon : Option Icon)
  /-- `window.set_window_icon(...)` on the window with this id. -/
  | setWindowIcon (wid : WindowId)
  /-- `event_loop.exit()`. -/
  | exitLoop
  /-- One wgpu call inside `WindowState::new`. -/
  | gpuStep (s : GpuStep)
deriving Repr, DecidableEq

/-- Whether a trace requests event-loop exit. -/
def requestsExit (tr : List Eff) : Bool :=
  tr.any (fun e => match e with | .exitLoop => true | _ => false)

/-- Number of `block_on` calls in a trace. -/
def countBlockOn (tr : List Eff) : Nat :=
  tr.countP (fun e => match e with | .blockOn => true | _ => false)

/-- Number of OS window creations in a trace. -/
def countOsCreate (tr : List Eff) : Nat :=
  tr.countP (fun e => match e with | .osCreateWindow _ _ _ => true | _ => false)

/-- winit::window::WindowAttributes (the attributes the code sets). -/
structure WindowAttributes where
  title : String
  transparent : Bool
  windowIcon : Option Icon
deriving Repr, DecidableEq

/-- Oracle for `ActiveEventLoop::create_window`; `none` models the `?` error
return. -/
structure ActiveEventLoop where
  createWindow : WindowAttributes → Option Window

/-- Decoded RGBA image (result of `image::load_from_memory(..).into_rgba8()`). -/
structure RgbaImage where
  width : Nat
  height : Nat
  data : List Nat
deriving Repr, DecidableEq

/-- Oracle for the image crate; `none` models the decode `.expect` panic. -/
structure ImageLib where
  loadFromMemory : List Nat → Option RgbaImage

/-- Modelled from winit `Icon::from_rgba`: succeeds exactly when the byte
vector holds one RGBA quadruple per pixel. -/
def Icon.fromRgba (rgba : List Nat) (width height : Nat) : Option Icon :=
  if rgba.length = 4 * width * height then
    some { rgba := rgba, width := width, height := height }
  else
    none

/-- `Application` (src/app.rs lines 111-119).  The `rt` field is a borrowed
runtime handle; its only use, `block_on`, is recorded as an `Eff.blockOn`
trace event, so the handle itself is not part of the model state. -/
structure Application where
  name : String
  /-- Map of windows indexed by their ID. -/
  windows : WindowMap
  /-- Icon used for application. -/
  icon : Option Icon

/-- `Application::new` (always returns `Ok`). -/
def Application.new (name : String) : Application :=
  { name := name, windows := [], icon := none }

/-- `Application::with_icon` (src/app.rs lines 144-163): decode the icon bytes,
store the icon, and set it on every existing window; `none` models a panic of
either `.expect`. -/
def Application.with_icon (lib : ImageLib) (app : Application)
    (iconBytes : List Nat) : Option (Application × List Eff) :=
  match lib.loadFromMemory iconBytes with
  | none => none
  | some image =>
    match Icon.fromRgba image.data image.width image.height with
    | none => none
    | some icon =>
        some ({ app with icon := some icon },
              app.windows.map (fun p => Eff.setWindowIcon p.1))

/-- `Application::create_window` (src/app.rs lines 166-197): build the window
attributes (title, transparent, current icon), ask the event loop for a
window, run `WindowState::new`, and insert the state under the new window's
id.  The trace records the OS window request and the gpu steps; `none` models
the `?` error or a panic inside `WindowState::new`. -/
def Application.create_window (gpu : Gpu) (eventLoop : ActiveEventLoop)
    (app : Application) (title : String) :
    List Eff × Option (Application × WindowId) :=
  match eventLoop.createWindow
      { title := title, transparent := true, windowIcon := app.icon } with
  | none => ([.osCreateWindow title true app.icon], none)
  | some window =>
    match (WindowState.newCore gpu window).2 with
    | none =>
        (.osCreateWindow title true app.icon ::
           (WindowState.newCore gpu window).1.map .gpuStep, none)
    | some windowState =>
        (.osCreateWindow title true app.icon ::
           (WindowState.newCore gpu window).1.map .gpuStep,
         some ({ app with
                   windows :=
                     insertW app.windows windowState.window.id windowState },
               windowState.window.id))

/-- `Application::close_window` (src/app.rs lines 200-208): remove the
binding, then request event-loop exit when the map is empty. -/
def Application.close_window (app : Application) (windowId : WindowId) :
    Application × List Eff :=
  let windows := removeW app.windows windowId
  ({ app with windows := windows },
   if windows.isEmpty then [.exitLoop] else [])

/-- `ApplicationHandler::resumed` (src/app.rs lines 212-215): block on one
`create_window(event_loop, self.name)` call and discard its result. -/
def Application.resumed (gpu : Gpu) (eventLoop : ActiveEventLoop)
    (app : Application) : Application × List Eff :=
  match (Application.create_window gpu eventLoop app app.name).2 with
  | none =>
      (app, .blockOn :: (Application.create_window gpu eventLoop app app.name).1)
  | some (app', _) =>
      (app', .blockOn :: (Application.create_window gpu eventLoop app app.name).1)

/-- `ApplicationHandler::window_event` (src/app.rs lines 217-233): close the
window on `CloseRequested` or a pressed physical Escape key; every other
event falls into the `_ => {}` arm. -/
def Application.window_event (app : Application) (windowId : WindowId)
    (event : WindowEvent) : Application × List Eff :=
  match event with
  | .closeRequested => app.close_window windowId
  | .keyboardInput ⟨.pressed, .code .escape, _⟩ _ => app.close_window windowId
  | _ => (app, [])

/-- The dispatch condition of the `match` in `window_event`. -/
def isCloseEvent : WindowEvent → Bool
  | .closeRequested => true
  | .keyboardInput ⟨.pressed, .code .escape, _⟩ _ => true
  | _ => false

/-! ## The public operations as a step relation -/

/-- One public `Application` operation, with the oracles it consumes. -/
inductive AppOp where
  | withIcon (lib : ImageLib) (iconBytes : List Nat)
  | createWindow (gpu : Gpu) (eventLoop : ActiveEventLoop) (title : String)
  | closeWindow (windowId : WindowId)
  | resumedOp (gpu : Gpu) (eventLoop : ActiveEventLoop)
  | windowEventOp (windowId : WindowId) (event : WindowEvent)

/-- Apply one operation to the application state (a failed fallible operation
leaves the state as it was: the program has panicked or returned the error). -/
def applyOp (app : Application) : AppOp → Application
  | .withIcon lib iconBytes =>
      match Application.with_icon lib app iconBytes with
      | none => app
      | some (app', _) => app'
  | .createWindow gpu eventLoop title =>
      match (Application.create_window gpu eventLoop app title).2 with
      | none => app
      | some (app', _) => app'
  | .closeWindow windowId => (app.close_window windowId).1
  | .resumedOp gpu eventLoop => (Application.resumed gpu eventLoop app).1
  | .windowEventOp windowId event => (app.window_event windowId event).1

/-- Run a sequence of operations from a starting state. -/
def runOps (app : Application) : List AppOp → Application
  | [] => app
  | op :: ops => runOps (applyOp app op) ops

/-- Every key of the window map is the id of the window stored under it. -/
def KeysMatch (app : Application) : Prop :=
  ∀ k ws, lookupW app.windows k = some ws → ws.window.id = k

/-- An operation is id-fresh for a state when the window it creates (if any)
has an id that is not yet a key of the map; winit window ids are unique, so
every operation the event loop actually delivers satisfies this. -/
def FreshOp (app : Application) : AppOp → Prop
  | .createWindow gpu eventLoop title =>
      ∀ app' wid,
        (Application.create_window gpu eventLoop app title).2 =
          some (app', wid) →
        lookupW app.windows wid = none
  | .resumedOp gpu eventLoop =>
      ∀ app' wid,
        (Application.create_window gpu eventLoop app app.name).2 =
          some (app', wid) →
        lookupW app.windows wid = none
  | _ => True

/-! ## The entry point (src/main.rs) -/

/-- winit::event_loop::ControlFlow (fragment). -/
inductive ControlFlow where
  | wait
  | poll
deriving Repr, DecidableEq

/-- The setup steps `main` performs, in program order. -/
inductive MainStep where
  | initTracing
  | buildRuntime
  | newApplication (name : String)
  | withIcon (path : String)
  | buildEventLoop
  | setControlFlow (cf : ControlFlow)
  | runApp
deriving Repr, DecidableEq

/-- Oracles for the fallible steps of `main` and for `run_app`'s result. -/
structure MainOracles where
  /-- Whether the tokio runtime builder succeeds (`.expect`). -/
  runtimeBuild : Bool
  /-- Result of decoding the icon inside `with_icon`; `none` is the panic. -/
  iconOk : Option Icon
  /-- Whether `EventLoop::with_user_event().build()` succeeds (`?`). -/
  eventLoopBuild : Bool
  /-- The result of `event_loop.run_app(&mut app)`, which `main` discards. -/
  runAppOk : Bool

/-- `main` (src/main.rs lines 6-33): the ordered trace of setup steps it
performs, and its result (`none` models an `?` error return or a panic). -/
def enviMain (o : MainOracles) : List MainStep × Option Unit :=
  if !o.runtimeBuild then
    ([.initTracing, .buildRuntime], none)
  else
    match o.iconOk with
    | none =>
        ([.initTracing, .buildRuntime, .newApplication "Envi",
          .withIcon "assets/icon.png"], none)
    | some _ =>
      if !o.eventLoopBuild then
        ([.initTracing, .buildRuntime, .newApplication "Envi",
          .withIcon "assets/icon.png", .buildEventLoop], none)
      else
        ([.initTracing, .buildRuntime, .newApplication "Envi",
          .withIcon "assets/icon.png", .buildEventLoop,
          .setControlFlow .wait, .runApp], some ())

/-! ## Helper lemmas about the window map -/

theorem lookupW_removeW (m : WindowMap) (k key : WindowId) :
    lookupW (removeW m k) key = if key = k then none else lookupW m key := by
  induction m with
  | nil => by_cases h : key = k <;> simp [removeW, lookupW, h]
  | cons p rest ih =>
    obtain ⟨k', v⟩ := p
    by_cases hk : k' = k
    · subst hk
      by_cases hkey : key = k'
      · subst hkey
        simpa [removeW, lookupW] using ih
      · simp only [removeW, List.filter_cons, bne_self_eq_false, cond_false]
        simpa [removeW, lookupW, hkey, Ne.symm hkey] using ih
    · have hbne : (k' != k) = true := bne_iff_ne.mpr hk
      by_cases hkey : k' = key
      · subst hkey
        simp [removeW, List.filter_cons, hbne, lookupW, hk]
      · simp only [removeW, List.filter_cons, hbne, cond_true, lookupW, hkey,
          if_false]
        simpa [removeW] using ih

theorem lookupW_insertW (m : WindowMap) (k : WindowId) (v : WindowState)
    (key : WindowId) :
    lookupW (insertW m k v) key = if k = key then some v else lookupW m key := by
  by_cases h : k = key
  · subst h
    simp [insertW, lookupW]
  · have hne : key ≠ k := fun hc => h hc.symm
    simp [insertW, lookupW, h, lookupW_removeW, hne]

/-! ## Inversion helpers for the operations -/

theorem newCore_some (gpu : Gpu) (window : Window) (ws : WindowState)
    (h : (WindowState.newCore gpu window).2 = some ws) :
    ∃ surface adapter device queue fmt dc,
      gpu.createSurface window = some surface ∧
      gpu.requestAdapter surface = some adapter ∧
      gpu.requestDevice adapter = some (device, queue) ∧
      (gpu.getCapabilities surface adapter).formats.find?
        TextureFormat.is_srgb = some fmt ∧
      getDefaultConfig (gpu.getCapabilities surface adapter)
        window.innerSize.width window.innerSize.height = some dc ∧
      ws = { surface := surface
             size := window.innerSize
             config := { dc with format := fmt }
             device := device
             queue := queue
             window := window } ∧
      (WindowState.newCore gpu window).1 =
        [.createSurface, .requestAdapter, .requestDevice, .getCapabilities,
         .selectFormat, .defaultConfig] := by
  unfold WindowState.newCore at h ⊢
  split at h
  · simp at h
  · next surface hcs =>
    split at h
    · simp at h
    · next adapter hra =>
      split at h
      · simp at h
      · next device queue hrd =>
        split at h
        · simp at h
        · next fmt hfind =>
          split at h
          · simp at h
          · next dc hdc =>
            simp only [Option.some.injEq] at h
            exact ⟨surface, adapter, device, queue, fmt, dc, hcs, hra, hrd,
              hfind, hdc, h.symm, by simp [hcs, hra, hrd, hfind, hdc]⟩

theorem with_icon_some (lib : ImageLib) (app : Application)
    (iconBytes : List Nat) (app' : Application) (tr : List Eff)
    (h : Application.with_icon lib app iconBytes = some (app', tr)) :
    app'.windows = app.windows ∧ app'.name = app.name ∧
    tr = app.windows.map (fun p => Eff.setWindowIcon p.1) := by
  unfold Application.with_icon at h
  split at h
  · simp at h
  · split at h
    · simp at h
    · simp only [Option.some.injEq, Prod.mk.injEq] at h
      obtain ⟨h1, h2⟩ := h
      exact ⟨by rw [← h1], by rw [← h1], h2.symm⟩

theorem create_window_some (gpu : Gpu) (eventLoop : ActiveEventLoop)
    (app : Application) (title : String) (app' : Application) (wid : WindowId)
    (h : (Application.create_window gpu eventLoop app title).2 =
      some (app', wid)) :
    ∃ window ws,
      eventLoop.createWindow
        { title := title, transparent := true, windowIcon := app.icon } =
        some window ∧
      WindowState.new gpu window = some ws ∧
      wid = ws.window.id ∧
      app'.windows = insertW app.windows wid ws ∧
      app'.name = app.name ∧ app'.icon = app.icon := by
  unfold Application.create_window at h
  split at h
  · simp at h
  · next window hcw =>
    split at h
    · simp at h
    · next ws hws =>
      simp only [Option.some.injEq, Prod.mk.injEq] at h
      obtain ⟨h1, h2⟩ := h
      subst h2
      exact ⟨window, ws, hcw, hws, rfl, by rw [← h1], by rw [← h1],
        by rw [← h1]⟩

theorem window_event_eq (app : Application) (windowId : WindowId)
    (event : WindowEvent) :
    app.window_event windowId event =
      if isCloseEvent event then app.close_window windowId else (app, []) := by
  cases event with
  | closeRequested => rfl
  | keyboardInput ke sy =>
    obtain ⟨st, pk, rpt⟩ := ke
    cases st with
    | pressed =>
      cases pk with
      | code c => cases c <;> rfl
      | unidentified n => rfl
    | released =>
      cases pk with
      | code c => cases c <;> rfl
      | unidentified n => rfl
  | resized s => rfl
  | moved x y => rfl
  | focused b => rfl
  | redrawRequested => rfl
  | destroyed => rfl
  | cursorMoved x y => rfl

/-! ## Concrete instances used by witnesses and counterexamples -/

/-- Sample capability list whose first format is not sRGB. -/
def caps0 : SurfaceCapabilities :=
  { formats := [.bgra8Unorm, .bgra8UnormSrgb]
    presentModes := [.fifo]
    alphaModes := [.auto] }

/-- Sample gpu oracle where every call succeeds. -/
def gpu0 : Gpu :=
  { createSurface := fun _ => some ⟨0⟩
    requestAdapter := fun _ => some ⟨0⟩
    requestDevice := fun _ => some (⟨0⟩, ⟨0⟩)
    getCapabilities := fun _ _ => caps0 }

/-- Sample window. -/
def window0 : Window :=
  { id := 7, title := "Envi", transparent := true, innerSize := ⟨800, 600⟩ }

/-- Sample event loop that creates `window0`-shaped windows. -/
def el0 : ActiveEventLoop :=
  { createWindow := fun a =>
      some { id := 7, title := a.title, transparent := a.transparent,
             innerSize := ⟨800, 600⟩ } }

/-- The window state `WindowState::new gpu0 window0` constructs. -/
def ws0 : WindowState :=
  { surface := ⟨0⟩
    size := ⟨800, 600⟩
    config := { usage := renderAttachment
                format := .bgra8UnormSrgb
                width := 800
                height := 600
                presentMode := .fifo
                desiredMaximumFrameLatency := 2
                alphaMode := .auto
                viewFormats := [] }
    device := ⟨0⟩
    queue := ⟨0⟩
    window := window0 }

/-- A fresh application. -/
def app0 : Application := Application.new "Envi"

/-- An application holding one window. -/
def app1 : Application :=
  { name := "Envi", windows := [(7, ws0)], icon := none }

/-- Sample image oracle that decodes anything to a 1x1 image. -/
def lib0 : ImageLib :=
  { loadFromMemory := fun _ =>
      some { width := 1, height := 1, data := [0, 0, 0, 0] } }

/-- Sample main oracles where every step succeeds. -/
def mo0 : MainOracles :=
  { runtimeBuild := true, iconOk := some ⟨[0, 0, 0, 0], 1, 1⟩,
    eventLoopBuild := true, runAppOk := true }

/-! ## Claims -/

/-- C1: `Application::window_event` calls `close_window` on the event's window
id exactly when the event is `CloseRequested` or a `KeyboardInput` whose key
event has state `Pressed` and physical key Escape; every other event leaves
the application state unchanged (and performs no effect). -/
theorem window_event_close_dispatch (app : Application) (windowId : WindowId)
    (event : WindowEvent) :
    app.window_event windowId event =
      (if isCloseEvent event then app.close_window windowId else (app, [])) ∧
    (isCloseEvent event = true ↔
      event = .closeRequested ∨
      ∃ rpt sy, event = .keyboardInput ⟨.pressed, .code .escape, rpt⟩ sy) := by
  refine ⟨window_event_eq app windowId event, ?_⟩
  constructor
  · intro h
    cases event with
    | closeRequested => exact Or.inl rfl
    | keyboardInput ke sy =>
      obtain ⟨st, pk, rpt⟩ := ke
      cases st with
      | pressed =>
        cases pk with
        | code c =>
          cases c with
          | escape => exact Or.inr ⟨rpt, sy, rfl⟩
          | enter => simp [isCloseEvent] at h
          | keyA => simp [isCloseEvent] at h
          | space => simp [isCloseEvent] at h
        | unidentified n => simp [isCloseEvent] at h
      | released =>
        cases pk with
        | code c => cases c <;> simp [isCloseEvent] at h
        | unidentified n => simp [isCloseEvent] at h
    | resized s => simp [isCloseEvent] at h
    | moved x y => simp [isCloseEvent] at h
    | focused b => simp [isCloseEvent] at h
    | redrawRequested => simp [isCloseEvent] at h
    | destroyed => simp [isCloseEvent] at h
    | cursorMoved x y => simp [isCloseEvent] at h
  · rintro (rfl | ⟨rpt, sy, rfl⟩) <;> rfl

/-- Witness for C1 at a concrete application and event. -/
theorem window_event_close_dispatch_witness :
    app1.window_event 7 .closeRequested =
      (if isCloseEvent .closeRequested then app1.close_window 7
       else (app1, [])) ∧
    (isCloseEvent .closeRequested = true ↔
      WindowEvent.closeRequested = .closeRequested ∨
      ∃ rpt sy, WindowEvent.closeRequested =
        .keyboardInput ⟨.pressed, .code .escape, rpt⟩ sy) :=
  window_event_close_dispatch app1 7 .closeRequested

/-- C2: `close_window` removes the binding of the given id (a no-op removal
when the id is absent), leaves every other binding alone, and requests
event-loop exit exactly when the window map is empty afterwards; in
particular, with an unknown id and an already-empty map it still requests
exit. -/
theorem close_window_spec (app : Application) (windowId : WindowId) :
    lookupW (app.close_window windowId).1.windows windowId = none ∧
    (∀ k, k ≠ windowId →
      lookupW (app.close_window windowId).1.windows k = lookupW app.windows k) ∧
    (app.close_window windowId).1.windows = removeW app.windows windowId ∧
    (requestsExit (app.close_window windowId).2 = true ↔
      (app.close_window windowId).1.windows = []) ∧
    (app.windows = [] → requestsExit (app.close_window windowId).2 = true) := by
  refine ⟨?_, ?_, rfl, ?_, ?_⟩
  · simp [Application.close_window, lookupW_removeW]
  · intro k hk
    simp [Application.close_window, lookupW_removeW, hk]
  · unfold Application.close_window
    by_cases h : (removeW app.windows windowId).isEmpty
    · simp only [h, if_true]
      simp only [List.isEmpty_iff] at h
      simp [requestsExit, h]
    · simp only [h]
      rw [List.isEmpty_iff] at h
      simp [requestsExit, h]
  · intro h
    simp [Application.close_window, removeW, h, requestsExit]

/-- Witness for C2: closing an unknown window id on an empty map still
requests event-loop exit. -/
theorem close_window_spec_witness :
    lookupW (app0.close_window 3).1.windows 3 = none ∧
    (∀ k, k ≠ 3 →
      lookupW (app0.close_window 3).1.windows k = lookupW app0.windows k) ∧
    (app0.close_window 3).1.windows = removeW app0.windows 3 ∧
    (requestsExit (app0.close_window 3).2 = true ↔
      (app0.close_window 3).1.windows = []) ∧
    (app0.windows = [] → requestsExit (app0.close_window 3).2 = true) :=
  close_window_spec app0 3

/-- C4: a `Resized` event is a no-op for the handler: the whole application
state (in particular every window's surface, config, device and queue) is
unchanged and no effect is performed; the `size` field of a `WindowState` is
the window size cached by `WindowState::new` from `inner_size` at
construction. -/
theorem resized_is_noop (app : Application) (windowId : WindowId)
    (newSize : PhysicalSize) :
    app.window_event windowId (.resized newSize) = (app, []) ∧
    (∀ k ws, lookupW app.windows k = some ws →
      lookupW (app.window_event windowId (.resized newSize)).1.windows k =
        some ws) ∧
    (∀ gpu w ws, WindowState.new gpu w = some ws → ws.size = w.innerSize) := by
  refine ⟨rfl, fun k ws h => h, fun gpu w ws h => ?_⟩
  obtain ⟨surface, adapter, device, queue, fmt, dc, -, -, -, -, -, hws, -⟩ :=
    newCore_some gpu w ws h
  rw [hws]

/-- Witness for C4 at a concrete application, resize event and window
construction. -/
theorem resized_is_noop_witness :
    app1.window_event 7 (.resized ⟨100, 100⟩) = (app1, []) ∧
    (∀ k ws, lookupW app1.windows k = some ws →
      lookupW (app1.window_event 7 (.resized ⟨100, 100⟩)).1.windows k =
        some ws) ∧
    (∀ gpu w ws, WindowState.new gpu w = some ws → ws.size = w.innerSize) :=
  resized_is_noop app1 7 ⟨100, 100⟩

/-- C7: `window_event` delegates to per-window state: its effect on the window
map is confined to the binding of the event's window id (every other binding
is untouched, and that binding is either kept unchanged or removed), and the
rest of the application state (name, icon) is untouched. -/
theorem window_event_locality (app : Application) (windowId : WindowId)
    (event : WindowEvent) :
    (∀ k, k ≠ windowId →
      lookupW (app.window_event windowId event).1.windows k =
        lookupW app.windows k) ∧
    (lookupW (app.window_event windowId event).1.windows windowId =
        lookupW app.windows windowId ∨
      lookupW (app.window_event windowId event).1.windows windowId = none) ∧
    (app.window_event windowId event).1.name = app.name ∧
    (app.window_event windowId event).1.icon = app.icon := by
  rw [window_event_eq]
  by_cases h : isCloseEvent event
  · simp only [h, if_true]
    refine ⟨fun k hk => ?_, Or.inr ?_, rfl, rfl⟩
    · simp [Application.close_window, lookupW_removeW, hk]
    · simp [Application.close_window, lookupW_removeW]
  · simp only [h, if_false]
    exact ⟨fun k _ => rfl, Or.inl rfl, rfl, rfl⟩

/-- Witness for C7 at a concrete application and event. -/
theorem window_event_locality_witness :
    (∀ k, k ≠ 7 →
      lookupW (app1.window_event 7 .redrawRequested).1.windows k =
        lookupW app1.windows k) ∧
    (lookupW (app1.window_event 7 .redrawRequested).1.windows 7 =
        lookupW app1.windows 7 ∨
      lookupW (app1.window_event 7 .redrawRequested).1.windows 7 = none) ∧
    (app1.window_event 7 .redrawRequested).1.name = app1.name ∧
    (app1.window_event 7 .redrawRequested).1.icon = app1.icon :=
  window_event_locality app1 7 .redrawRequested

/-- C3 counterexample: with a capability list whose first format is not sRGB,
`WindowState::new` succeeds but the surface configuration it stores differs
from the library's default configuration for the window's size — the code
overrides the `format` field with the first sRGB format. -/
theorem surface_config_not_default :
    (WindowState.new gpu0 window0).isSome = true ∧
    (WindowState.new gpu0 window0).map (fun ws => ws.config) ≠
      getDefaultConfig (gpu0.getCapabilities ⟨0⟩ ⟨0⟩)
        window0.innerSize.width window0.innerSize.height := by
  decide

/-- C3 amended: the surface configuration of a newly created window equals the
library's default configuration for that window's size with exactly one field
overridden by this codebase: `format`, set to the first sRGB format of the
surface's capability list. -/
theorem surface_config_default_except_format (gpu : Gpu) (window : Window)
    (ws : WindowState) (h : WindowState.new gpu window = some ws) :
    ∃ surface adapter dc fmt,
      gpu.createSurface window = some surface ∧
      gpu.requestAdapter surface = some adapter ∧
      (gpu.getCapabilities surface adapter).formats.find?
        TextureFormat.is_srgb = some fmt ∧
      getDefaultConfig (gpu.getCapabilities surface adapter)
        window.innerSize.width window.innerSize.height = some dc ∧
      ws.config = { dc with format := fmt } := by
  obtain ⟨surface, adapter, device, queue, fmt, dc, hcs, hra, hrd, hfind, hdc,
    hws, -⟩ := newCore_some gpu window ws h
  exact ⟨surface, adapter, dc, fmt, hcs, hra, hfind, hdc, by rw [hws]⟩

/-- Witness for the amended C3 at a concrete gpu oracle and window. -/
theorem surface_config_default_except_format_witness :
    WindowState.new gpu0 window0 = some ws0 ∧
    ∃ surface adapter dc fmt,
      gpu0.createSurface window0 = some surface ∧
      gpu0.requestAdapter surface = some adapter ∧
      (gpu0.getCapabilities surface adapter).formats.find?
        TextureFormat.is_srgb = some fmt ∧
      getDefaultConfig (gpu0.getCapabilities surface adapter)
        window0.innerSize.width window0.innerSize.height = some dc ∧
      ws0.config = { dc with format := fmt } :=
  ⟨by decide, surface_config_default_except_format gpu0 window0 ws0 (by decide)⟩

/-- C5: `WindowState::new` performs the negotiation in program order (surface,
adapter, device, capabilities, sRGB format selection, default config); when it
returns a state, the chosen surface format is the first sRGB format of the
surface's capability list and is sRGB; when the capability list holds no sRGB
format (after surface, adapter and device succeed), construction fails. -/
theorem window_state_new_negotiation (gpu : Gpu) (window : Window) :
    (∀ ws, WindowState.new gpu window = some ws →
      (WindowState.newCore gpu window).1 =
        [.createSurface, .requestAdapter, .requestDevice, .getCapabilities,
         .selectFormat, .defaultConfig] ∧
      ws.config.format.is_srgb = true ∧
      ∃ surface adapter,
        gpu.createSurface window = some surface ∧
        gpu.requestAdapter surface = some adapter ∧
        (gpu.getCapabilities surface adapter).formats.find?
          TextureFormat.is_srgb = some ws.config.format) ∧
    (∀ surface adapter deviceQueue,
      gpu.createSurface window = some surface →
      gpu.requestAdapter surface = some adapter →
      gpu.requestDevice adapter = some deviceQueue →
      (∀ f, f ∈ (gpu.getCapabilities surface adapter).formats →
        f.is_srgb = false) →
      WindowState.new gpu window = none) := by
  constructor
  · intro ws h
    obtain ⟨surface, adapter, device, queue, fmt, dc, hcs, hra, hrd, hfind,
      hdc, hws, htr⟩ := newCore_some gpu window ws h
    have hfmt : ws.config.format = fmt := by rw [hws]
    refine ⟨htr, ?_, surface, adapter, hcs, hra, by rw [hfmt]; exact hfind⟩
    have := List.find?_some hfind
    rw [hfmt]
    exact this
  · intro surface adapter deviceQueue hcs hra hrd hno
    have hfind : (gpu.getCapabilities surface adapter).formats.find?
        TextureFormat.is_srgb = none := by
      rw [List.find?_eq_none]
      intro f hf
      simp [hno f hf]
    obtain ⟨device, queue⟩ := deviceQueue
    have hfind2 : (gpu.getCapabilities surface adapter).formats.find?
        (fun f => f.is_srgb) = none := hfind
    unfold WindowState.new WindowState.newCore
    simp only [hcs, hra, hrd, hfind2]

/-- Witness for C5 at a concrete gpu oracle and window. -/
theorem window_state_new_negotiation_witness :
    ((WindowState.new gpu0 window0 = some ws0) ∧
      ((WindowState.newCore gpu0 window0).1 =
        [.createSurface, .requestAdapter, .requestDevice, .getCapabilities,
         .selectFormat, .defaultConfig] ∧
      ws0.config.format.is_srgb = true ∧
      ∃ surface adapter,
        gpu0.createSurface window0 = some surface ∧
        gpu0.requestAdapter surface = some adapter ∧
        (gpu0.getCapabilities surface adapter).formats.find?
          TextureFormat.is_srgb = some ws0.config.format)) :=
  ⟨by decide,
   (window_state_new_negotiation gpu0 window0).1 ws0 (by decide)⟩

/-! ## More helper lemmas (traces and counting) -/

theorem create_window_trace (gpu : Gpu) (eventLoop : ActiveEventLoop)
    (app : Application) (title : String) :
    ∃ gtr : List GpuStep,
      (Application.create_window gpu eventLoop app title).1 =
        .osCreateWindow title true app.icon :: gtr.map Eff.gpuStep := by
  unfold Application.create_window
  split
  · exact ⟨[], rfl⟩
  · split
    · exact ⟨_, rfl⟩
    · exact ⟨_, rfl⟩

theorem countBlockOn_gpuSteps (gtr : List GpuStep) :
    countBlockOn (gtr.map Eff.gpuStep) = 0 := by
  induction gtr with
  | nil => rfl
  | cons s rest ih => simp [countBlockOn, List.countP_cons]

theorem countOsCreate_gpuSteps (gtr : List GpuStep) :
    countOsCreate (gtr.map Eff.gpuStep) = 0 := by
  induction gtr with
  | nil => rfl
  | cons s rest ih => simp [countOsCreate, List.countP_cons]

theorem countBlockOn_setIcons (m : WindowMap) :
    countBlockOn (m.map (fun p => Eff.setWindowIcon p.1)) = 0 := by
  induction m with
  | nil => rfl
  | cons p rest ih => simp [countBlockOn, List.countP_cons]

theorem resumed_trace (gpu : Gpu) (eventLoop : ActiveEventLoop)
    (app : Application) :
    (Application.resumed gpu eventLoop app).2 =
      .blockOn :: (Application.create_window gpu eventLoop app app.name).1 := by
  unfold Application.resumed
  split <;> rfl

theorem resumed_result_some (gpu : Gpu) (eventLoop : ActiveEventLoop)
    (app app' : Application) (wid : WindowId)
    (h : (Application.create_window gpu eventLoop app app.name).2 =
      some (app', wid)) :
    (Application.resumed gpu eventLoop app).1 = app' := by
  unfold Application.resumed
  split
  · next heq => rw [heq] at h; exact Option.noConfusion h
  · next a b heq =>
    rw [heq] at h
    simp only [Option.some.injEq, Prod.mk.injEq] at h
    exact h.1

theorem close_window_windows (app : Application) (windowId : WindowId) :
    (app.close_window windowId).1.windows = removeW app.windows windowId := rfl

theorem resumed_result (gpu : Gpu) (eventLoop : ActiveEventLoop)
    (app : Application) :
    (Application.resumed gpu eventLoop app).1 =
      match (Application.create_window gpu eventLoop app app.name).2 with
      | none => app
      | some (app', _) => app' := by
  unfold Application.resumed
  split <;> rfl

/-! ## Remaining claims -/

/-- C6: a `WindowState` stored in the window map is never mutated by any
public operation: as long as the binding remains (and the operation's freshly
created window id, if any, is fresh, as winit guarantees), it maps to the very
same `WindowState` value; otherwise the binding is gone. -/
theorem window_state_immutable (app : Application) (op : AppOp)
    (k : WindowId) (ws : WindowState) (hfresh : FreshOp app op)
    (h : lookupW app.windows k = some ws) :
    lookupW (applyOp app op).windows k = some ws ∨
    lookupW (applyOp app op).windows k = none := by
  cases op with
  | withIcon lib iconBytes =>
    rw [show applyOp app (.withIcon lib iconBytes) =
      (match Application.with_icon lib app iconBytes with
       | none => app
       | some (app', _) => app') from rfl]
    split
    · exact Or.inl h
    · next app' tr heq =>
      obtain ⟨hw, -, -⟩ := with_icon_some lib app iconBytes app' tr heq
      rw [hw]
      exact Or.inl h
  | createWindow gpu eventLoop title =>
    rw [show applyOp app (.createWindow gpu eventLoop title) =
      (match (Application.create_window gpu eventLoop app title).2 with
       | none => app
       | some (app', _) => app') from rfl]
    split
    · exact Or.inl h
    · next app' wid heq =>
      obtain ⟨window, ws', hcw, hws, hwid, hins, -, -⟩ :=
        create_window_some gpu eventLoop app title app' wid heq
      have hfr : lookupW app.windows wid = none := hfresh app' wid heq
      have hkne : wid ≠ k := by
        intro he
        rw [he, h] at hfr
        exact Option.noConfusion hfr
      rw [hins, lookupW_insertW, if_neg hkne]
      exact Or.inl h
  | closeWindow wid =>
    show lookupW (app.close_window wid).1.windows k = some ws ∨
      lookupW (app.close_window wid).1.windows k = none
    rw [close_window_windows, lookupW_removeW]
    by_cases hk : k = wid
    · rw [if_pos hk]
      exact Or.inr rfl
    · rw [if_neg hk]
      exact Or.inl h
  | resumedOp gpu eventLoop =>
    rw [show applyOp app (.resumedOp gpu eventLoop) =
      (Application.resumed gpu eventLoop app).1 from rfl,
      resumed_result gpu eventLoop app]
    split
    · exact Or.inl h
    · next app' wid heq =>
      obtain ⟨window, ws', hcw, hws, hwid, hins, -, -⟩ :=
        create_window_some gpu eventLoop app app.name app' wid heq
      have hfr : lookupW app.windows wid = none := hfresh app' wid heq
      have hkne : wid ≠ k := by
        intro he
        rw [he, h] at hfr
        exact Option.noConfusion hfr
      rw [hins, lookupW_insertW, if_neg hkne]
      exact Or.inl h
  | windowEventOp wid event =>
    have he : applyOp app (.windowEventOp wid event) =
        (if isCloseEvent event then app.close_window wid else (app, [])).1 := by
      show (app.window_event wid event).1 = _
      rw [window_event_eq]
    rw [he]
    by_cases hc : isCloseEvent event
    · rw [if_pos hc, close_window_windows, lookupW_removeW]
      by_cases hk : k = wid
      · rw [if_pos hk]
        exact Or.inr rfl
      · rw [if_neg hk]
        exact Or.inl h
    · rw [if_neg hc]
      exact Or.inl h

/-- Witness for C6: closing one window leaves the state of another intact. -/
theorem window_state_immutable_witness :
    FreshOp app1 (.closeWindow 3) ∧
    lookupW app1.windows 7 = some ws0 ∧
    (lookupW (applyOp app1 (.closeWindow 3)).windows 7 = some ws0 ∨
      lookupW (applyOp app1 (.closeWindow 3)).windows 7 = none) :=
  ⟨trivial, by decide,
   window_state_immutable app1 (.closeWindow 3) 7 ws0 trivial (by decide)⟩

/-- C8: `resumed` performs exactly one blocking call on the async runtime,
and that call requests exactly one OS window, titled with the application
name; on success the created state is inserted under the new window's id and
becomes the resulting state.  No other operation's trace contains a
`block_on`. -/
theorem resumed_single_block (gpu : Gpu) (eventLoop : ActiveEventLoop)
    (app : Application) :
    countBlockOn (Application.resumed gpu eventLoop app).2 = 1 ∧
    countOsCreate (Application.resumed gpu eventLoop app).2 = 1 ∧
    (∃ tr, (Application.resumed gpu eventLoop app).2 =
      .blockOn :: .osCreateWindow app.name true app.icon :: tr) ∧
    (∀ app' wid,
      (Application.create_window gpu eventLoop app app.name).2 =
        some (app', wid) →
      (Application.resumed gpu eventLoop app).1 = app' ∧
      ∃ window wsn,
        eventLoop.createWindow
          { title := app.name, transparent := true, windowIcon := app.icon } =
          some window ∧
        WindowState.new gpu window = some wsn ∧
        wid = wsn.window.id ∧
        app'.windows = insertW app.windows wid wsn) ∧
    (∀ windowId, countBlockOn (app.close_window windowId).2 = 0) ∧
    (∀ windowId event, countBlockOn (app.window_event windowId event).2 = 0) ∧
    (∀ lib iconBytes app' tr,
      Application.with_icon lib app iconBytes = some (app', tr) →
      countBlockOn tr = 0) ∧
    (∀ title,
      countBlockOn (Application.create_window gpu eventLoop app title).1 = 0) := by
  obtain ⟨gtr, htr⟩ := create_window_trace gpu eventLoop app app.name
  have hcb : ∀ title,
      countBlockOn (Application.create_window gpu eventLoop app title).1 = 0 := by
    intro title
    obtain ⟨gtr', htr'⟩ := create_window_trace gpu eventLoop app title
    rw [htr']
    simp [countBlockOn, List.countP_cons]
  have hclose : ∀ windowId,
      countBlockOn (app.close_window windowId).2 = 0 := by
    intro windowId
    by_cases hE : (removeW app.windows windowId).isEmpty <;>
      simp [Application.close_window, hE, countBlockOn, List.countP_cons]
  refine ⟨?_, ?_, ?_, ?_, hclose, ?_, ?_, hcb⟩
  · rw [resumed_trace, htr]
    simp [countBlockOn, List.countP_cons]
  · rw [resumed_trace, htr]
    simp [countOsCreate, List.countP_cons]
  · exact ⟨gtr.map Eff.gpuStep, by rw [resumed_trace, htr]⟩
  · intro app' wid h
    obtain ⟨window, wsn, hcw, hws, hwid, hins, -, -⟩ :=
      create_window_some gpu eventLoop app app.name app' wid h
    exact ⟨resumed_result_some gpu eventLoop app app' wid h,
      window, wsn, hcw, hws, hwid, hins⟩
  · intro windowId event
    rw [window_event_eq]
    by_cases hc : isCloseEvent event
    · rw [if_pos hc]
      exact hclose windowId
    · rw [if_neg hc]
      rfl
  · intro lib iconBytes app' tr h
    obtain ⟨-, -, htr'⟩ := with_icon_some lib app iconBytes app' tr h
    rw [htr']
    exact countBlockOn_setIcons app.windows

/-- Witness for C8 at a concrete application. -/
theorem resumed_single_block_witness :
    countBlockOn (Application.resumed gpu0 el0 app0).2 = 1 ∧
    countOsCreate (Application.resumed gpu0 el0 app0).2 = 1 ∧
    (∃ tr, (Application.resumed gpu0 el0 app0).2 =
      .blockOn :: .osCreateWindow app0.name true app0.icon :: tr) ∧
    (∀ app' wid,
      (Application.create_window gpu0 el0 app0 app0.name).2 =
        some (app', wid) →
      (Application.resumed gpu0 el0 app0).1 = app' ∧
      ∃ window wsn,
        el0.createWindow
          { title := app0.name, transparent := true,
            windowIcon := app0.icon } = some window ∧
        WindowState.new gpu0 window = some wsn ∧
        wid = wsn.window.id ∧
        app'.windows = insertW app0.windows wid wsn) ∧
    (∀ windowId, countBlockOn (app0.close_window windowId).2 = 0) ∧
    (∀ windowId event, countBlockOn (app0.window_event windowId event).2 = 0) ∧
    (∀ lib iconBytes app' tr,
      Application.with_icon lib app0 iconBytes = some (app', tr) →
      countBlockOn tr = 0) ∧
    (∀ title, countBlockOn (Application.create_window gpu0 el0 app0 title).1 = 0) :=
  resumed_single_block gpu0 el0 app0

/-- C9: `main` performs its setup steps in program order — logging, runtime,
`Application::new "Envi"` then `with_icon`, event loop construction, control
flow `Wait` — and finally calls `run_app`; when every setup step succeeds it
returns `Ok(())` regardless of `run_app`'s result. -/
theorem envi_main_order (o : MainOracles) (hrt : o.runtimeBuild = true)
    (hicon : o.iconOk.isSome = true) (hel : o.eventLoopBuild = true) :
    enviMain o =
      ([.initTracing, .buildRuntime, .newApplication "Envi",
        .withIcon "assets/icon.png", .buildEventLoop, .setControlFlow .wait,
        .runApp], some ()) := by
  unfold enviMain
  rw [hrt]
  cases hio : o.iconOk with
  | none => rw [hio] at hicon; exact Bool.noConfusion hicon
  | some i => rw [hel]; rfl

/-- Witness for C9 at concrete oracles. -/
theorem envi_main_order_witness :
    mo0.runtimeBuild = true ∧ mo0.iconOk.isSome = true ∧
    mo0.eventLoopBuild = true ∧
    enviMain mo0 =
      ([.initTracing, .buildRuntime, .newApplication "Envi",
        .withIcon "assets/icon.png", .buildEventLoop, .setControlFlow .wait,
        .runApp], some ()) :=
  ⟨rfl, rfl, rfl, envi_main_order mo0 rfl rfl rfl⟩

/-- Helper: every operation preserves the key/window-id agreement of the
window map. -/
theorem keysMatch_applyOp (app : Application) (op : AppOp)
    (h : KeysMatch app) : KeysMatch (applyOp app op) := by
  cases op with
  | withIcon lib iconBytes =>
    rw [show applyOp app (.withIcon lib iconBytes) =
      (match Application.with_icon lib app iconBytes with
       | none => app
       | some (app', _) => app') from rfl]
    split
    · exact h
    · next app' tr heq =>
      obtain ⟨hw, -, -⟩ := with_icon_some lib app iconBytes app' tr heq
      intro k ws hws
      rw [hw] at hws
      exact h k ws hws
  | createWindow gpu eventLoop title =>
    rw [show applyOp app (.createWindow gpu eventLoop title) =
      (match (Application.create_window gpu eventLoop app title).2 with
       | none => app
       | some (app', _) => app') from rfl]
    split
    · exact h
    · next app' wid heq =>
      obtain ⟨window, ws', hcw, hws, hwid, hins, -, -⟩ :=
        create_window_some gpu eventLoop app title app' wid heq
      intro k ws hk
      rw [hins, lookupW_insertW] at hk
      by_cases hkw : wid = k
      · rw [if_pos hkw] at hk
        obtain rfl := Option.some.inj hk
        rw [← hwid, hkw]
      · rw [if_neg hkw] at hk
        exact h k ws hk
  | closeWindow wid =>
    intro k ws hk
    rw [show (applyOp app (.closeWindow wid)).windows =
      removeW app.windows wid from rfl, lookupW_removeW] at hk
    by_cases hkw : k = wid
    · rw [if_pos hkw] at hk
      exact Option.noConfusion hk
    · rw [if_neg hkw] at hk
      exact h k ws hk
  | resumedOp gpu eventLoop =>
    rw [show applyOp app (.resumedOp gpu eventLoop) =
      (Application.resumed gpu eventLoop app).1 from rfl,
      resumed_result gpu eventLoop app]
    split
    · exact h
    · next app' wid heq =>
      obtain ⟨window, ws', hcw, hws, hwid, hins, -, -⟩ :=
        create_window_some gpu eventLoop app app.name app' wid heq
      intro k ws hk
      rw [hins, lookupW_insertW] at hk
      by_cases hkw : wid = k
      · rw [if_pos hkw] at hk
        obtain rfl := Option.some.inj hk
        rw [← hwid, hkw]
      · rw [if_neg hkw] at hk
        exact h k ws hk
  | windowEventOp wid event =>
    have he : applyOp app (.windowEventOp wid event) =
        (if isCloseEvent event then app.close_window wid else (app, [])).1 := by
      show (app.window_event wid event).1 = _
      rw [window_event_eq]
    rw [he]
    by_cases hc : isCloseEvent event
    · rw [if_pos hc]
      intro k ws hk
      rw [close_window_windows, lookupW_removeW] at hk
      by_cases hkw : k = wid
      · rw [if_pos hkw] at hk
        exact Option.noConfusion hk
      · rw [if_neg hkw] at hk
        exact h k ws hk
    · rw [if_neg hc]
      exact h

/-- C10: in every application state reachable from `Application::new` by the
public operations, every key of the window map is the id of the window stored
under it. -/
theorem windows_keys_match (name : String) (ops : List AppOp) :
    KeysMatch (runOps (Application.new name) ops) := by
  have hbase : KeysMatch (Application.new name) := by
    intro k ws h
    simp [Application.new, lookupW] at h
  suffices haux : ∀ app : Application,
      KeysMatch app → KeysMatch (runOps app ops) from haux _ hbase
  induction ops with
  | nil => exact fun app h => h
  | cons op rest ih =>
    intro app h
    exact ih _ (keysMatch_applyOp app op h)

/-- Witness for C10 at a concrete operation sequence. -/
theorem windows_keys_match_witness :
    KeysMatch (runOps (Application.new "Envi")
      [.createWindow gpu0 el0 "Envi", .closeWindow 3]) :=
  windows_keys_match "Envi" [.createWindow gpu0 el0 "Envi", .closeWindow 3]

end Envi
